import Mathlib

/-!
Verification of the gamecraft-ai workflow orchestration core.

This file shallowly embeds the parts of the repository that the checked
claims are about:

* `src/gamecraft_ai/models/query.py` — the `QueryInput` pydantic record and
  its validation (non-blank text, duration between 5 and 20);
* `src/gamecraft_ai/graph/state.py` — the `GameCraftState` record and
  `create_initial_state`;
* `src/gamecraft_ai/graph/nodes.py` — the `NodeManager` node wrappers and
  the routing predicates;
* `src/gamecraft_ai/graph/workflow.py` — the graph wiring of
  `_create_workflow`, `_format_result` and `process_query`;
* `src/gamecraft_ai/utils/cache.py` — the in-memory cache
  (`_get_memory`, `_set_memory`, `delete`).

Python dictionaries are embedded as association lists `List (String × β)`;
a raised exception is embedded as the `Except.error` branch; wall-clock
times (`time.time()`) are embedded as integers, since the code only ever
adds a ttl to a timestamp and compares with `>`.
-/

set_option autoImplicit false

namespace GameCraft

/-- Python `dict` lookup on an association-list embedding of a dict. -/
def dictLookup {β : Type} (c : List (String × β)) (k : String) : Option β :=
  match c with
  | [] => none
  | (k', v) :: rest => if k' = k then some v else dictLookup rest k

/-- Python `key in dict` membership test. -/
def dictContains {β : Type} (c : List (String × β)) (k : String) : Bool :=
  match c with
  | [] => false
  | (k', _) :: rest => if k' = k then true else dictContains rest k

/-- Python `dict[key] = value`: overwrite in place if the key exists
(keeping its position, as CPython dicts do), otherwise append. -/
def dictInsert {β : Type} (c : List (String × β)) (k : String) (v : β) :
    List (String × β) :=
  match c with
  | [] => [(k, v)]
  | (k', v') :: rest =>
    if k' = k then (k, v) :: rest else (k', v') :: dictInsert rest k v

/-- Python `del dict[key]`: remove every binding of `k` (there is at most
one in a well-formed dict); bindings of other keys are untouched. -/
def dictErase {β : Type} (c : List (String × β)) (k : String) :
    List (String × β) :=
  match c with
  | [] => []
  | (k', v') :: rest =>
    if k' = k then dictErase rest k else (k', v') :: dictErase rest k

/-! ## Cache layer (`src/gamecraft_ai/utils/cache.py`, memory backend)

A cache entry stores the value together with the absolute expiry
timestamp `expires = time.time() + ttl` and the creation timestamp,
exactly as `_set_memory` builds it. -/

/-- One entry of the in-memory cache: `{"value": v, "expires": t, "created": c}`. -/
structure CacheEntry (α : Type) where
  value : α
  expires : Int
  created : Int
deriving Repr, DecidableEq

/-- The in-memory backing store `self._cache`. -/
def MemCache (α : Type) : Type := List (String × CacheEntry α)

/-- Embeds `CacheService._set_memory`: store the value with absolute
expiry `now + ttl` and return `True`. `now` stands for `time.time()`. -/
def setMemory {α : Type} (now : Int) (cache : MemCache α) (key : String)
    (value : α) (ttl : Int) : MemCache α × Bool :=
  (dictInsert cache key { value := value, expires := now + ttl, created := now }, true)

/-- Embeds `CacheService._get_memory`: absent key gives `none`; a key
whose entry has `now > expires` is deleted and gives `none` (lazy
eviction); otherwise the stored value is returned and the store is left
as it was. The function returns the read result together with the store
after the call. -/
def getMemory {α : Type} (now : Int) (cache : MemCache α) (key : String) :
    Option α × MemCache α :=
  match dictLookup cache key with
  | none => (none, cache)
  | some entry =>
    if now > entry.expires then (none, dictErase cache key)
    else (some entry.value, cache)

/-- Embeds the memory branch of `CacheService.delete`: if the key is in
the store, delete it and return `True`; otherwise return `False` and
leave the store unchanged. No expiry check is performed, and the
function is total (the `except` wrapper in the source never fires on the
memory path). -/
def cacheDelete {α : Type} (cache : MemCache α) (key : String) :
    Bool × MemCache α :=
  if dictContains cache key then (true, dictErase cache key)
  else (false, cache)

/-! ### Dict lemmas -/

theorem dictLookup_dictInsert_self {β : Type} (c : List (String × β))
    (k : String) (v : β) : dictLookup (dictInsert c k v) k = some v := by
  induction c with
  | nil => simp [dictInsert, dictLookup]
  | cons hd tl ih =>
    obtain ⟨k', v'⟩ := hd
    by_cases h : k' = k
    · simp [dictInsert, h, dictLookup]
    · simp [dictInsert, h, dictLookup, ih]

theorem dictLookup_dictErase_self {β : Type} (c : List (String × β))
    (k : String) : dictLookup (dictErase c k) k = none := by
  induction c with
  | nil => simp [dictErase, dictLookup]
  | cons hd tl ih =>
    obtain ⟨k', v'⟩ := hd
    by_cases h : k' = k
    · simp [dictErase, h, ih]
    · simp [dictErase, h, dictLookup, ih]

theorem dictLookup_dictErase_ne {β : Type} (c : List (String × β))
    (k k' : String) (h : k' ≠ k) :
    dictLookup (dictErase c k) k' = dictLookup c k' := by
  induction c with
  | nil => simp [dictErase]
  | cons hd tl ih =>
    obtain ⟨k₀, v₀⟩ := hd
    have hkk' : ¬ k = k' := fun hc => h hc.symm
    by_cases h₀ : k₀ = k
    · subst h₀
      simp [dictErase, dictLookup, ih, hkk']
    · simp only [dictErase, if_neg h₀, dictLookup]
      by_cases h₁ : k₀ = k'
      · rw [if_pos h₁, if_pos h₁]
      · rw [if_neg h₁, if_neg h₁, ih]

theorem dictContains_iff_lookup {β : Type} (c : List (String × β))
    (k : String) : dictContains c k = true ↔ (dictLookup c k).isSome := by
  induction c with
  | nil => simp [dictContains, dictLookup]
  | cons hd tl ih =>
    obtain ⟨k', v'⟩ := hd
    by_cases h : k' = k
    · simp [dictContains, h, dictLookup]
    · simp [dictContains, h, dictLookup, ih]

/-! ## Data model (`models/query.py`, `models/content.py`, `graph/state.py`)

The content records (`GameInfo`, `MediaAsset`, `ReviewScore`, `EventInfo`,
`ScriptOutput`) are pydantic models whose internals the orchestration core
never inspects; only their presence matters, so they are embedded as small
records. A pydantic model instance defines neither `__bool__` nor
`__len__`, so in Python it is always truthy: truthiness of an optional
model field is exactly `Option.isSome`. -/

/-- Query type tag (`QueryType` enum). -/
inductive QueryType
  | event
  | game
deriving Repr, DecidableEq

/-- Language tag (`Language` enum). -/
inductive Language
  | english
  | french
deriving Repr, DecidableEq

/-- Opaque stand-in for the `GameInfo` pydantic record. -/
structure GameInfo where
  name : String
deriving Repr, DecidableEq

/-- Opaque stand-in for the `MediaAsset` pydantic record. -/
structure MediaAsset where
  url : String
deriving Repr, DecidableEq

/-- Opaque stand-in for the `ReviewScore` pydantic record. -/
structure ReviewScore where
  source : String
  score : Int
deriving Repr, DecidableEq

/-- Opaque stand-in for the `EventInfo` pydantic record. -/
structure EventInfo where
  name : String
deriving Repr, DecidableEq

/-- Opaque stand-in for the `ScriptOutput` pydantic record. -/
structure ScriptOutput where
  title : String
  content : String
deriving Repr, DecidableEq

/-- The `QueryInput` pydantic record (`models/query.py`). -/
structure QueryInput where
  text : String
  duration_minutes : Int
  query_type : Option QueryType := none
  language : Option Language := none
  confidence : Option Rat := none
  game_name : Option String := none
  video_url : Option String := none
  script_format : Option String := none
deriving Repr, DecidableEq

/-- Python `str.isspace` on one character, for the characters
`str.strip()` removes. -/
def pyIsSpace (c : Char) : Bool :=
  c = ' ' || c = '\t' || c = '\n' || c = '\r' || c = '\x0b' || c = '\x0c'

/-- Embeds Python `str.strip()`: drop leading and trailing whitespace. -/
def pyStrip (s : String) : String :=
  ⟨((s.data.dropWhile pyIsSpace).reverse.dropWhile pyIsSpace).reverse⟩

/-- Embeds constructing `QueryInput(text=..., duration_minutes=...)` under
pydantic validation: the `text_must_not_be_empty` validator rejects blank
text (and stores the stripped text), and `Field(ge=5, le=20)` rejects a
duration outside 5..20. `Except.error` embeds the raised
`ValidationError`. -/
def QueryInput.make (text : String) (duration_minutes : Int) :
    Except String QueryInput :=
  if pyStrip text = "" then Except.error "Query text cannot be empty"
  else if duration_minutes < 5 ∨ 20 < duration_minutes then
    Except.error "duration_minutes out of range"
  else Except.ok { text := pyStrip text, duration_minutes := duration_minutes }

/-- The LangGraph state record (`graph/state.py`, `GameCraftState`).
`query_metadata` values are abstracted to strings; the core never reads
them. `processing_time` (a Python float of seconds) is embedded as an
integer timestamp difference. -/
structure GameCraftState where
  query : QueryInput
  query_metadata : List (String × String)
  game_info : Option GameInfo
  media_assets : List MediaAsset
  review_scores : List ReviewScore
  event_info : Option EventInfo
  script : Option ScriptOutput
  processing_time : Int
  cached : Bool
  errors : List String
  warnings : List String
  current_step : String
  completed_steps : List String
deriving Repr, DecidableEq

/-- Embeds `create_initial_state(query_text, duration_minutes)`. The
`QueryInput` construction inside it can raise a `ValidationError`, which
propagates out, hence the `Except`. -/
def create_initial_state (query_text : String) (duration_minutes : Int) :
    Except String GameCraftState :=
  (QueryInput.make query_text duration_minutes).map fun q =>
    { query := q
      query_metadata := []
      game_info := none
      media_assets := []
      review_scores := []
      event_info := none
      script := none
      processing_time := 0
      cached := false
      errors := []
      warnings := []
      current_step := "start"
      completed_steps := [] }

/-! ## Step collaborators and the Node Manager (`graph/nodes.py`)

Each node wraps one collaborator call
(`self.classifier.classify_query(dict(state))` etc.) on a shallow
`dict(state)` copy, so list values — in particular `completed_steps` —
are shared between the node's state and the copy the collaborator gets.
Inspection of `agents/classifier.py`, `agents/research_agent.py`,
`agents/script_writer.py` and `agents/youtube_coach.py` shows the
collaborators read and write the query, content, cache and
errors/warnings fields, and exactly one of them also touches the node's
bookkeeping: `ScriptWriterAgent.write_script` runs through
`BaseAgent._update_processing_step(state, "script_generation")`, which
re-sets `current_step` to the very name the node just set (a no-op) and
appends the step name to the shared `completed_steps` list if it is not
already present. The classifier's `classify_query`, the researcher's
`conduct_research` and the coach never reach
`_update_processing_step`. `processing_time` is written only by the
workflow manager. A collaborator is therefore embedded as a function
from the state to either an exception message (`Except.error`, the
`raise` case) or an update of the fields collaborators may write, plus a
flag recording whether its bookkeeping logged the node's own step name
through the shared list. -/

/-- The effect of a collaborator that returns normally: the fields
`state.update(updated_state)` overwrites, plus `logs_own_step`, which
embeds the `BaseAgent._update_processing_step` append of the node's own
step name to the shared `completed_steps` list (`true` exactly for the
script writer's entry path, `false` for the other agents). -/
structure CollabUpdate where
  query : QueryInput
  query_metadata : List (String × String)
  game_info : Option GameInfo
  media_assets : List MediaAsset
  review_scores : List ReviewScore
  event_info : Option EventInfo
  script : Option ScriptOutput
  cached : Bool
  errors : List String
  warnings : List String
  logs_own_step : Bool
deriving Repr, DecidableEq

/-- A step collaborator: `conduct(state) -> state'`, may raise. -/
def Collab : Type := GameCraftState → Except String CollabUpdate

/-- Embeds `state.update(updated_state)` for a successful collaborator
return: the collaborator-owned fields are overwritten, the node-owned
bookkeeping fields survive. -/
def applyUpdate (s : GameCraftState) (u : CollabUpdate) : GameCraftState :=
  { s with
      query := u.query
      query_metadata := u.query_metadata
      game_info := u.game_info
      media_assets := u.media_assets
      review_scores := u.review_scores
      event_info := u.event_info
      script := u.script
      cached := u.cached
      errors := u.errors
      warnings := u.warnings }

/-- The common shape of `classify_node` / `research_node` /
`script_generation_node` / `thumbnail_generation_node`: set
`current_step` to the step name, call the collaborator; on success, the
collaborator's bookkeeping may first have appended the node's own step
name to the shared `completed_steps` list (only when not already
present, per `_update_processing_step`), then the returned state is
merged back (`state.update`, a no-op for the shared list) and the node
appends the step name unconditionally; on an exception append
`"<label>: <message>"` to `errors` and return the state as it stands. -/
def runNode (stepName errorLabel : String) (collab : Collab)
    (s : GameCraftState) : GameCraftState :=
  let s1 := { s with current_step := stepName }
  match collab s1 with
  | Except.ok u =>
    let logged :=
      if u.logs_own_step ∧ stepName ∉ s1.completed_steps then [stepName]
      else []
    let s2 := applyUpdate s1 u
    { s2 with completed_steps := s2.completed_steps ++ logged ++ [stepName] }
  | Except.error e =>
    { s1 with errors := s1.errors ++ [errorLabel ++ ": " ++ e] }

/-- The `NodeManager`, holding the four step collaborators it was
constructed with. -/
structure NodeManager where
  classifier : Collab
  researcher : Collab
  script_writer : Collab
  youtube_coach : Collab

/-- Embeds `NodeManager.classify_node`. -/
def NodeManager.classify_node (nm : NodeManager) (s : GameCraftState) :
    GameCraftState :=
  runNode "classify" "Classification error" nm.classifier s

/-- Embeds `NodeManager.research_node`. -/
def NodeManager.research_node (nm : NodeManager) (s : GameCraftState) :
    GameCraftState :=
  runNode "research" "Research error" nm.researcher s

/-- Embeds `NodeManager.script_generation_node`. -/
def NodeManager.script_generation_node (nm : NodeManager)
    (s : GameCraftState) : GameCraftState :=
  runNode "script_generation" "Script generation error" nm.script_writer s

/-- Embeds `NodeManager.thumbnail_generation_node`. -/
def NodeManager.thumbnail_generation_node (nm : NodeManager)
    (s : GameCraftState) : GameCraftState :=
  runNode "thumbnail_generation" "Thumbnail generation error" nm.youtube_coach s

/-- Embeds `NodeManager.finish_node`: set `current_step = "finished"`,
append `"finished"` to `completed_steps`; then `if not errors and
script: pass`, `elif errors:` append the completion warning. `finish_node`
never calls a collaborator and never raises. -/
def finish_node (s : GameCraftState) : GameCraftState :=
  let s1 := { s with
                current_step := "finished"
                completed_steps := s.completed_steps ++ ["finished"] }
  if s1.errors = [] ∧ s1.script.isSome then s1
  else if s1.errors ≠ [] then
    { s1 with warnings := s1.warnings ++ ["Processing completed with errors"] }
  else s1

/-! ## Routing predicates and the graph (`graph/nodes.py`, `graph/workflow.py`) -/

/-- Embeds `should_continue_to_research`. -/
def should_continue_to_research (state : GameCraftState) : String :=
  if state.errors ≠ [] then "finish" else "research"

/-- Embeds `should_continue_to_script`. -/
def should_continue_to_script (state : GameCraftState) : String :=
  if state.errors ≠ [] then "finish" else "script_generation"

/-- Embeds `should_continue_to_thumbnails`. -/
def should_continue_to_thumbnails (state : GameCraftState) : String :=
  if state.errors ≠ [] then "finish" else "thumbnail_generation"

/-- Embeds one invocation of the compiled graph of
`WorkflowManager._create_workflow`: entry point `classify`, conditional
edges driven by the three routing predicates, `thumbnail_generation`
always to `finish`, `finish` terminal. -/
def invokeWorkflow (nm : NodeManager) (s0 : GameCraftState) : GameCraftState :=
  let s1 := nm.classify_node s0
  if should_continue_to_research s1 = "research" then
    let s2 := nm.research_node s1
    if should_continue_to_script s2 = "script_generation" then
      let s3 := nm.script_generation_node s2
      if should_continue_to_thumbnails s3 = "thumbnail_generation" then
        finish_node (nm.thumbnail_generation_node s3)
      else finish_node s3
    else finish_node s2
  else finish_node s1

/-! ## Result shaping and the public entry point (`graph/workflow.py`) -/

/-- The values that can appear in the result dict built by
`_format_result` and by the `except` branch of `process_query`. -/
inductive ResultValue
  | bool (b : Bool)
  | str (s : String)
  | int (n : Int)
  | optQueryType (t : Option QueryType)
  | optLanguage (l : Option Language)
  | strList (l : List String)
  | gameInfo (g : GameInfo)
  | mediaAssets (l : List MediaAsset)
  | reviewScores (l : List ReviewScore)
  | eventInfo (e : EventInfo)
  | script (s : ScriptOutput)
deriving Repr, DecidableEq

/-- A result dict, in insertion order. -/
def Result : Type := List (String × ResultValue)

/-- Embeds `WorkflowManager._format_result`. `success = bool(state["script"]
and not state["errors"])`; a `ScriptOutput` instance is always truthy, so
this is `script.isSome && errors.isEmpty`. Content keys are added only
when the field is truthy: `isSome` for the optional records, non-empty
for the two lists. -/
def format_result (s : GameCraftState) : Result :=
  [("success", ResultValue.bool (s.script.isSome && s.errors.isEmpty)),
   ("query_type", ResultValue.optQueryType s.query.query_type),
   ("language", ResultValue.optLanguage s.query.language),
   ("processing_time", ResultValue.int s.processing_time),
   ("cached", ResultValue.bool s.cached),
   ("errors", ResultValue.strList s.errors),
   ("warnings", ResultValue.strList s.warnings)]
  ++ (match s.game_info with
      | some g => [("game_info", ResultValue.gameInfo g)]
      | none => [])
  ++ (if s.media_assets ≠ [] then
        [("media_assets", ResultValue.mediaAssets s.media_assets)]
      else [])
  ++ (if s.review_scores ≠ [] then
        [("review_scores", ResultValue.reviewScores s.review_scores)]
      else [])
  ++ (match s.event_info with
      | some e => [("event_info", ResultValue.eventInfo e)]
      | none => [])
  ++ (match s.script with
      | some sc => [("script", ResultValue.script sc)]
      | none => [])

/-- Embeds `WorkflowManager.process_query(query_text, duration_minutes)`
after the model re-bind step (modelled separately below, since it does
not influence the state pipeline of this function).

`invoke` stands for `self.workflow.invoke`; its `Except.error` branch
embeds an exception escaping the graph engine itself. `elapsed` stands
for the measured `time.time() - start_time`.

Faithful to the source, `create_initial_state` is called before the
`try:` block, so a `ValidationError` raised by the `QueryInput`
constructor propagates to the caller (the outer `Except.error`). An
exception raised inside the `try:` block is turned into the degraded
five-key result dict of the `except` branch. -/
def process_query (invoke : GameCraftState → Except String GameCraftState)
    (query_text : String) (duration_minutes : Int) (elapsed : Int) :
    Except String Result :=
  match create_initial_state query_text duration_minutes with
  | Except.error e => Except.error e
  | Except.ok initial_state =>
    match invoke initial_state with
    | Except.ok final_state =>
      Except.ok (format_result { final_state with processing_time := elapsed })
    | Except.error e =>
      Except.ok
        [("success", ResultValue.bool false),
         ("error", ResultValue.str e),
         ("processing_time", ResultValue.int elapsed),
         ("query_type", ResultValue.optQueryType initial_state.query.query_type),
         ("language", ResultValue.optLanguage initial_state.query.language)]

/-! ## Model re-binding (`WorkflowManager.__init__` / `process_query`)

For the model-selection claim, only which objects hold which model
binding matters. `WorkflowManager.__init__` builds `self.llm_service`
and the four agents bound to the requested model, then builds
`self.node_manager` over those agents and compiles `self.workflow` over
that node manager — both exactly once. The re-bind block of
`process_query` reassigns `self.llm_service`, `self.classifier`,
`self.researcher`, `self.script_writer` and `self.youtube_coach`, but
neither `self.node_manager` nor `self.workflow`, so the graph keeps
invoking the agents captured at construction time. The record below
tracks the model each layer is bound to. -/

structure WorkflowManagerBinding where
  llm_service_model : String
  agents_model : String
  node_manager_model : String
deriving Repr, DecidableEq

/-- Embeds `WorkflowManager.__init__(model)`: every layer is bound to
`model or "gpt-4o-mini"`. -/
def WorkflowManagerBinding.init (model : Option String) :
    WorkflowManagerBinding :=
  let m := match model with
           | some s => if s = "" then "gpt-4o-mini" else s
           | none => "gpt-4o-mini"
  { llm_service_model := m, agents_model := m, node_manager_model := m }

/-- Embeds the re-bind block at the top of `process_query`: `if model and
model != self.llm_service.model:` rebuild the llm service and the four
agents with the new model. `self.node_manager` and `self.workflow` are
not rebuilt, so the node manager keeps its binding. -/
def WorkflowManagerBinding.rebind (wm : WorkflowManagerBinding)
    (model : Option String) : WorkflowManagerBinding :=
  match model with
  | some m =>
    if m ≠ "" ∧ m ≠ wm.llm_service_model then
      { llm_service_model := m, agents_model := m,
        node_manager_model := wm.node_manager_model }
    else wm
  | none => wm

/-- The model binding that the graph execution of `process_query`
actually uses: `self.workflow.invoke` drives the nodes registered in
`_create_workflow`, which are bound methods of `self.node_manager`, so
the run uses the collaborators held by the node manager. -/
def WorkflowManagerBinding.modelUsedByRun (wm : WorkflowManagerBinding) :
    String :=
  wm.node_manager_model

/-! ## Concrete fixtures used by witnesses and counterexamples -/

/-- A validated query record as `create_initial_state` builds it. -/
def exampleQuery : QueryInput := { text := "review Game X", duration_minutes := 10 }

/-- A concrete script record. -/
def exampleScript : ScriptOutput := { title := "Game X review", content := "intro" }

/-- The initial state for `exampleQuery`, exactly as `create_initial_state`
produces it. -/
def blankState : GameCraftState :=
  { query := exampleQuery
    query_metadata := []
    game_info := none
    media_assets := []
    review_scores := []
    event_info := none
    script := none
    processing_time := 0
    cached := false
    errors := []
    warnings := []
    current_step := "start"
    completed_steps := [] }

/-- A collaborator that raises with message `"boom"`. -/
def boomCollab : Collab := fun _ => Except.error "boom"

/-- A node manager whose collaborators all raise `"boom"`. -/
def nmBoom : NodeManager :=
  { classifier := boomCollab, researcher := boomCollab,
    script_writer := boomCollab, youtube_coach := boomCollab }

/-- A collaborator that returns the state it was given, unchanged (the
update echoes every collaborator-owned field) and, like the classifier,
researcher and coach, performs no `_update_processing_step`
bookkeeping. -/
def idCollab : Collab := fun s =>
  Except.ok
    { query := s.query, query_metadata := s.query_metadata,
      game_info := s.game_info, media_assets := s.media_assets,
      review_scores := s.review_scores, event_info := s.event_info,
      script := s.script, cached := s.cached,
      errors := s.errors, warnings := s.warnings,
      logs_own_step := false }

/-- A node manager whose collaborators all succeed without changing the
state. -/
def nmId : NodeManager :=
  { classifier := idCollab, researcher := idCollab,
    script_writer := idCollab, youtube_coach := idCollab }

/-- A collaborator shaped like the real `ScriptWriterAgent`: it succeeds,
stores a script, and its `_update_processing_step` bookkeeping logs the
node's own step name through the shared `completed_steps` list. -/
def scriptWriterCollab : Collab := fun s =>
  Except.ok
    { query := s.query, query_metadata := s.query_metadata,
      game_info := s.game_info, media_assets := s.media_assets,
      review_scores := s.review_scores, event_info := s.event_info,
      script := some exampleScript, cached := s.cached,
      errors := s.errors, warnings := s.warnings,
      logs_own_step := true }

/-- A node manager shaped like the real pipeline with every collaborator
succeeding: only the script-writer slot performs the
`_update_processing_step` bookkeeping. -/
def nmScripted : NodeManager :=
  { classifier := idCollab, researcher := idCollab,
    script_writer := scriptWriterCollab, youtube_coach := idCollab }

/-! ## Helper lemmas about the node wrappers -/

theorem runNode_completed_steps (n l : String) (c : Collab)
    (s : GameCraftState) :
    (runNode n l c s).completed_steps = s.completed_steps ∨
      (runNode n l c s).completed_steps = s.completed_steps ++ [n] ∨
      (runNode n l c s).completed_steps = s.completed_steps ++ [n, n] := by
  unfold runNode
  rcases hc : c { s with current_step := n } with e | u
  · left
    simp [hc]
  · by_cases hl : u.logs_own_step ∧ n ∉ s.completed_steps
    · right
      right
      simp [hc, applyUpdate, hl]
    · right
      left
      simp [hc, applyUpdate, hl]

theorem finish_node_completed_steps (s : GameCraftState) :
    (finish_node s).completed_steps = s.completed_steps ++ ["finished"] := by
  unfold finish_node
  by_cases h1 : s.errors = [] ∧ s.script.isSome
  · simp [h1]
  · by_cases h2 : s.errors = []
    · simp [h1, h2]
    · simp [h1, h2]

theorem should_continue_to_research_eq (s : GameCraftState) :
    should_continue_to_research s = "research" ↔ s.errors = [] := by
  unfold should_continue_to_research
  by_cases h : s.errors = []
  · simp [h]
  · simp [h]

theorem should_continue_to_script_eq (s : GameCraftState) :
    should_continue_to_script s = "script_generation" ↔ s.errors = [] := by
  unfold should_continue_to_script
  by_cases h : s.errors = []
  · simp [h]
  · simp [h]

theorem should_continue_to_thumbnails_eq (s : GameCraftState) :
    should_continue_to_thumbnails s = "thumbnail_generation" ↔ s.errors = [] := by
  unfold should_continue_to_thumbnails
  by_cases h : s.errors = []
  · simp [h]
  · simp [h]

/-! ## C1 -/

/-- C1: for every final state, the Result built by
`WorkflowManager._format_result` has `success = true` if and only if the
state's `script` field is non-null and its `errors` list is empty (both
directions). -/
theorem result_success_iff_script_and_no_errors (s : GameCraftState) :
    dictLookup (format_result s) "success" = some (ResultValue.bool true) ↔
      (s.script ≠ none ∧ s.errors = []) := by
  have h : dictLookup (format_result s) "success"
      = some (ResultValue.bool (s.script.isSome && s.errors.isEmpty)) := rfl
  rw [h]
  simp [Option.isSome_iff_ne_none, List.isEmpty_iff]

/-- Witness for C1 at a concrete final state: with a script present and
no errors, `success` is `true`. -/
theorem result_success_iff_script_and_no_errors_witness :
    dictLookup (format_result { blankState with script := some exampleScript })
        "success" = some (ResultValue.bool true) :=
  (result_success_iff_script_and_no_errors
      { blankState with script := some exampleScript }).mpr
    ⟨by decide, rfl⟩

/-! ## C6 -/

/-- A state reaching `finish` with errors recorded and a script present. -/
def stateErrorsAndScript : GameCraftState :=
  { blankState with
      errors := ["Research error: boom"]
      script := some exampleScript
      completed_steps := ["classify", "research"] }

/-- C6 counterexample: the claim says the warning is appended if and only
if `errors` is non-empty AND `script` is null; on a state with non-empty
`errors` and a non-null `script` the code nevertheless appends the
warning (`finish_node` only tests `elif state["errors"]`). -/
theorem finish_warning_despite_script :
    stateErrorsAndScript.errors ≠ [] ∧
    stateErrorsAndScript.script ≠ none ∧
    (finish_node stateErrorsAndScript).warnings =
      ["Processing completed with errors"] := by
  refine ⟨by decide, by decide, rfl⟩

/-- C6 amended: `finish_node` sets `current_step` to `"finished"`, appends
`"finished"` to `completed_steps`, appends the warning
`"Processing completed with errors"` if and only if `errors` is non-empty
(regardless of `script`), and changes nothing else. -/
theorem finish_node_spec (s : GameCraftState) :
    (finish_node s).current_step = "finished" ∧
    (finish_node s).completed_steps = s.completed_steps ++ ["finished"] ∧
    (finish_node s).warnings =
      (if s.errors = [] then s.warnings
       else s.warnings ++ ["Processing completed with errors"]) ∧
    (finish_node s).errors = s.errors ∧
    (finish_node s).script = s.script ∧
    (finish_node s).query = s.query ∧
    (finish_node s).query_metadata = s.query_metadata ∧
    (finish_node s).game_info = s.game_info ∧
    (finish_node s).media_assets = s.media_assets ∧
    (finish_node s).review_scores = s.review_scores ∧
    (finish_node s).event_info = s.event_info ∧
    (finish_node s).processing_time = s.processing_time ∧
    (finish_node s).cached = s.cached := by
  unfold finish_node
  by_cases h1 : s.errors = [] ∧ s.script.isSome
  · simp [h1, h1.1]
  · by_cases h2 : s.errors = []
    · simp [h1, h2]
    · simp [h1, h2]

/-! ## C7 -/

/-- C7: on the in-memory cache, `set(k, v, ttl)` with positive ttl
followed immediately by `get(k)` returns `v` and leaves the store as the
set left it; once more than `ttl` seconds have elapsed since the set,
`get(k)` returns absent and the store after the get is exactly the store
with `k` evicted (lazy eviction touching no other entry — there is no
proactive sweep anywhere in the memory backend). -/
theorem cache_roundtrip {α : Type} (now t : Int) (cache : MemCache α)
    (k : String) (v : α) (ttl : Int) (httl : 0 < ttl) :
    (setMemory now cache k v ttl).2 = true ∧
    getMemory now (setMemory now cache k v ttl).1 k =
      (some v, (setMemory now cache k v ttl).1) ∧
    (now + ttl < t →
      getMemory t (setMemory now cache k v ttl).1 k =
        (none, dictErase (setMemory now cache k v ttl).1 k)) := by
  have hl : dictLookup (setMemory now cache k v ttl).1 k
      = some { value := v, expires := now + ttl, created := now } :=
    dictLookup_dictInsert_self cache k _
  refine ⟨rfl, ?_, ?_⟩
  · unfold getMemory
    rw [hl]
    have : ¬ now > now + ttl := by omega
    simp [this]
  · intro ht
    unfold getMemory
    rw [hl]
    have : t > now + ttl := ht
    simp [this]

/-- Witness for C7: set at time 0 with ttl 10, read back at time 0, then
read again at time 11. -/
theorem cache_roundtrip_witness :
    getMemory 0 (setMemory 0 ([] : MemCache Int) "igdb:GameX" 5 10).1
        "igdb:GameX" =
      (some 5, (setMemory 0 ([] : MemCache Int) "igdb:GameX" 5 10).1) ∧
    getMemory 11 (setMemory 0 ([] : MemCache Int) "igdb:GameX" 5 10).1
        "igdb:GameX" =
      (none,
        dictErase (setMemory 0 ([] : MemCache Int) "igdb:GameX" 5 10).1
          "igdb:GameX") :=
  ⟨(cache_roundtrip 0 11 [] "igdb:GameX" 5 10 (by decide)).2.1,
   (cache_roundtrip 0 11 [] "igdb:GameX" 5 10 (by decide)).2.2 (by decide)⟩

/-! ## C10 -/

/-- C10: on the in-memory cache, `delete(key)` returns `True` and removes
the entry whenever the key is present in the backing store — no expiry
check is made, so this covers entries whose TTL already elapsed but were
not yet lazily evicted — and returns `False` leaving the store unchanged
when the key is absent. The embedding is a total function, matching the
fact that the memory path of `delete` cannot raise. -/
theorem cache_delete_spec {α : Type} (cache : MemCache α) (k : String) :
    (dictContains cache k = true →
      cacheDelete cache k = (true, dictErase cache k) ∧
      dictLookup (cacheDelete cache k).2 k = none) ∧
    (dictContains cache k = false →
      cacheDelete cache k = (false, cache)) := by
  constructor
  · intro h
    unfold cacheDelete
    rw [h]
    exact ⟨rfl, by simp [dictLookup_dictErase_self]⟩
  · intro h
    unfold cacheDelete
    rw [h]
    simp

/-- Witness for C10: deleting a present key whose entry is already
expired (stored at time 0 with ttl 1, considered at any later time)
still returns `True` and removes it; deleting from the empty store
returns `False`. -/
theorem cache_delete_spec_witness :
    cacheDelete [("k", ({ value := 5, expires := 1, created := 0 } : CacheEntry Int))] "k" =
      (true, []) ∧
    cacheDelete ([] : MemCache Int) "k" = (false, []) := by
  constructor
  · have h := (cache_delete_spec
        [("k", ({ value := 5, expires := 1, created := 0 } : CacheEntry Int))] "k").1
      (by decide)
    exact h.1
  · exact (cache_delete_spec ([] : MemCache Int) "k").2 (by decide)

/-! ## C5 -/

/-- C5 counterexample: when the classify collaborator raises `"boom"`, the
string appended to `errors` is `"Classification error: boom"` — not
`"classify error: boom"` as the claim exemplifies for the classify node —
and `current_step` is changed from `"start"` to `"classify"`, so the rest
of the state is not left unchanged either. -/
theorem classify_error_label_counterexample :
    (nmBoom.classify_node blankState).errors = ["Classification error: boom"] ∧
    (["Classification error: boom"] : List String) ≠ ["classify error: boom"] ∧
    blankState.current_step = "start" ∧
    (nmBoom.classify_node blankState).current_step = "classify" := by
  refine ⟨rfl, by decide, rfl, rfl⟩

/-- C5 amended: for every node, if the wrapped collaborator raises, the
node returns normally and the result is the input state with exactly two
changes: `current_step` is set to the node's step name, and exactly one
string `"<Label> error: <message>"` is appended to `errors`, where the
label is `Classification` / `Research` / `Script generation` /
`Thumbnail generation` respectively; `completed_steps` and every other
field are unchanged. -/
theorem node_exception_spec (nm : NodeManager) (s : GameCraftState)
    (e : String) :
    (nm.classifier { s with current_step := "classify" } = Except.error e →
      nm.classify_node s =
        { s with current_step := "classify",
                 errors := s.errors ++ ["Classification error: " ++ e] }) ∧
    (nm.researcher { s with current_step := "research" } = Except.error e →
      nm.research_node s =
        { s with current_step := "research",
                 errors := s.errors ++ ["Research error: " ++ e] }) ∧
    (nm.script_writer { s with current_step := "script_generation" } =
        Except.error e →
      nm.script_generation_node s =
        { s with current_step := "script_generation",
                 errors := s.errors ++ ["Script generation error: " ++ e] }) ∧
    (nm.youtube_coach { s with current_step := "thumbnail_generation" } =
        Except.error e →
      nm.thumbnail_generation_node s =
        { s with current_step := "thumbnail_generation",
                 errors := s.errors ++ ["Thumbnail generation error: " ++ e] }) := by
  refine ⟨fun h => ?_, fun h => ?_, fun h => ?_, fun h => ?_⟩
  · unfold NodeManager.classify_node runNode
    simp only [h]
    rfl
  · unfold NodeManager.research_node runNode
    simp only [h]
    rfl
  · unfold NodeManager.script_generation_node runNode
    simp only [h]
    rfl
  · unfold NodeManager.thumbnail_generation_node runNode
    simp only [h]
    rfl

/-- Witness for the amended C5, at the all-raising node manager and the
concrete initial state. -/
theorem node_exception_spec_witness :
    nmBoom.classify_node blankState =
      { blankState with
          current_step := "classify",
          errors := ["Classification error: boom"] } :=
  (node_exception_spec nmBoom blankState "boom").1 rfl

/-! ## C2 -/

/-- The keys of a result dict, in order. -/
def resultKeys (r : Result) : List String := r.map Prod.fst

/-- The content keys `_format_result` adds for a given final state: one
key per truthy content field. -/
def contentKeys (s : GameCraftState) : List String :=
  (if s.game_info.isSome then ["game_info"] else []) ++
  (if s.media_assets ≠ [] then ["media_assets"] else []) ++
  (if s.review_scores ≠ [] then ["review_scores"] else []) ++
  (if s.event_info.isSome then ["event_info"] else []) ++
  (if s.script.isSome then ["script"] else [])

/-- C8 counterexample: when an exception escapes the graph, the degraded
Result of the `except` branch carries only `success`, `error`,
`processing_time`, `query_type` and `language` — it lacks the `cached`,
`errors` and `warnings` fields the claim requires of every Result. -/
theorem degraded_result_missing_fields :
    process_query (fun _ => Except.error "boom") "review Game X" 10 7 =
      Except.ok
        [("success", ResultValue.bool false),
         ("error", ResultValue.str "boom"),
         ("processing_time", ResultValue.int 7),
         ("query_type", ResultValue.optQueryType none),
         ("language", ResultValue.optLanguage none)] ∧
    (∀ r : Result,
      process_query (fun _ => Except.error "boom") "review Game X" 10 7 =
          Except.ok r →
        dictLookup r "cached" = none ∧
        dictLookup r "errors" = none ∧
        dictLookup r "warnings" = none) := by
  refine ⟨rfl, fun r hr => ?_⟩
  have h1 : (Except.ok
      [("success", ResultValue.bool false),
       ("error", ResultValue.str "boom"),
       ("processing_time", ResultValue.int 7),
       ("query_type", ResultValue.optQueryType none),
       ("language", ResultValue.optLanguage none)] : Except String Result) =
      Except.ok r := by
    rw [← hr]
    exact rfl
  injection h1 with h2
  rw [← h2]
  refine ⟨rfl, rfl, rfl⟩

/-- C8 amended: a Result produced from a completed graph run contains
`success`, `query_type`, `language`, `processing_time`, `cached`,
`errors` and `warnings`, plus one key per populated content field
(`game_info`, `media_assets`, `review_scores`, `event_info`, `script`);
the degraded Result produced when an exception escapes the graph instead
contains exactly `success`, `error`, `processing_time`, `query_type` and
`language`. -/
theorem process_query_result_fields
    (invoke : GameCraftState → Except String GameCraftState)
    (query_text : String) (duration_minutes elapsed : Int)
    (st fin : GameCraftState) (e : String) :
    (create_initial_state query_text duration_minutes = Except.ok st →
      invoke st = Except.ok fin →
      process_query invoke query_text duration_minutes elapsed =
        Except.ok (format_result { fin with processing_time := elapsed }) ∧
      resultKeys (format_result { fin with processing_time := elapsed }) =
        ["success", "query_type", "language", "processing_time", "cached",
         "errors", "warnings"] ++ contentKeys fin) ∧
    (create_initial_state query_text duration_minutes = Except.ok st →
      invoke st = Except.error e →
      process_query invoke query_text duration_minutes elapsed =
        Except.ok
          [("success", ResultValue.bool false),
           ("error", ResultValue.str e),
           ("processing_time", ResultValue.int elapsed),
           ("query_type", ResultValue.optQueryType st.query.query_type),
           ("language", ResultValue.optLanguage st.query.language)]) := by
  constructor
  · intro hinit hrun
    constructor
    · unfold process_query
      simp only [hinit, hrun]
    · unfold format_result resultKeys contentKeys
      rcases hg : fin.game_info with _ | g <;>
        rcases he : fin.event_info with _ | ev <;>
        rcases hs : fin.script with _ | sc <;>
        by_cases hm : fin.media_assets ≠ [] <;>
        by_cases hr : fin.review_scores ≠ [] <;>
        simp [hg, he, hs, hm, hr] <;>
        rfl
  · intro hinit hrun
    unfold process_query
    simp only [hinit, hrun]

/-- Witness for the amended C8 at a concrete run: classify raises inside
the node (captured), the pipeline short-circuits, and the Result of the
successful-run branch carries the seven base keys and no content keys. -/
theorem process_query_result_fields_witness :
    process_query (fun s => Except.ok (invokeWorkflow nmBoom s))
        "review Game X" 10 7 =
      Except.ok (format_result
        { invokeWorkflow nmBoom blankState with processing_time := 7 }) ∧
    resultKeys (format_result
        { invokeWorkflow nmBoom blankState with processing_time := 7 }) =
      ["success", "query_type", "language", "processing_time", "cached",
       "errors", "warnings"] ++ contentKeys (invokeWorkflow nmBoom blankState) :=
  (process_query_result_fields (fun s => Except.ok (invokeWorkflow nmBoom s))
      "review Game X" 10 7 blankState (invokeWorkflow nmBoom blankState)
      "unused").1 rfl rfl

/-! ## C9 -/

/-- C9: the re-bind block of `process_query` replaces `self.llm_service`
and the four agent attributes, but `self.node_manager` and
`self.workflow` are built once in `__init__` and never rebuilt, so the
graph execution after a re-bind still invokes the collaborators bound to
the previous model. Evaluated at the failing input: a manager built for
`"gpt-4o-mini"` asked to process with `"gpt-4o"` runs the graph with
collaborators still bound to `"gpt-4o-mini"`. -/
theorem rebind_leaves_node_manager_stale :
    ((WorkflowManagerBinding.init (some "gpt-4o-mini")).rebind
        (some "gpt-4o")).llm_service_model = "gpt-4o" ∧
    ((WorkflowManagerBinding.init (some "gpt-4o-mini")).rebind
        (some "gpt-4o")).agents_model = "gpt-4o" ∧
    WorkflowManagerBinding.modelUsedByRun
        ((WorkflowManagerBinding.init (some "gpt-4o-mini")).rebind
          (some "gpt-4o")) = "gpt-4o-mini" ∧
    ("gpt-4o-mini" : String) ≠ "gpt-4o" := by
  refine ⟨rfl, rfl, rfl, by decide⟩

/-! ## Branch lemmas for the graph execution -/

theorem invokeWorkflow_eq_finish_classify (nm : NodeManager)
    (s0 : GameCraftState) (h : (nm.classify_node s0).errors ≠ []) :
    invokeWorkflow nm s0 = finish_node (nm.classify_node s0) := by
  have hr : should_continue_to_research (nm.classify_node s0) = "finish" := by
    unfold should_continue_to_research
    rw [if_pos h]
  simp [invokeWorkflow, hr]

theorem invokeWorkflow_eq_finish_research (nm : NodeManager)
    (s0 : GameCraftState)
    (h1 : (nm.classify_node s0).errors = [])
    (h2 : (nm.research_node (nm.classify_node s0)).errors ≠ []) :
    invokeWorkflow nm s0 =
      finish_node (nm.research_node (nm.classify_node s0)) := by
  have hr1 : should_continue_to_research (nm.classify_node s0) = "research" := by
    unfold should_continue_to_research
    rw [if_neg (by simp [h1])]
  have hr2 : should_continue_to_script
      (nm.research_node (nm.classify_node s0)) = "finish" := by
    unfold should_continue_to_script
    rw [if_pos h2]
  simp [invokeWorkflow, hr1, hr2]

theorem invokeWorkflow_eq_finish_script (nm : NodeManager)
    (s0 : GameCraftState)
    (h1 : (nm.classify_node s0).errors = [])
    (h2 : (nm.research_node (nm.classify_node s0)).errors = [])
    (h3 : (nm.script_generation_node
            (nm.research_node (nm.classify_node s0))).errors ≠ []) :
    invokeWorkflow nm s0 =
      finish_node (nm.script_generation_node
        (nm.research_node (nm.classify_node s0))) := by
  have hr1 : should_continue_to_research (nm.classify_node s0) = "research" := by
    unfold should_continue_to_research
    rw [if_neg (by simp [h1])]
  have hr2 : should_continue_to_script
      (nm.research_node (nm.classify_node s0)) = "script_generation" := by
    unfold should_continue_to_script
    rw [if_neg (by simp [h2])]
  have hr3 : should_continue_to_thumbnails
      (nm.script_generation_node (nm.research_node (nm.classify_node s0)))
        = "finish" := by
    unfold should_continue_to_thumbnails
    rw [if_pos h3]
  simp [invokeWorkflow, hr1, hr2, hr3]

theorem invokeWorkflow_eq_finish_thumbnails (nm : NodeManager)
    (s0 : GameCraftState)
    (h1 : (nm.classify_node s0).errors = [])
    (h2 : (nm.research_node (nm.classify_node s0)).errors = [])
    (h3 : (nm.script_generation_node
            (nm.research_node (nm.classify_node s0))).errors = []) :
    invokeWorkflow nm s0 =
      finish_node (nm.thumbnail_generation_node (nm.script_generation_node
        (nm.research_node (nm.classify_node s0)))) := by
  have hr1 : should_continue_to_research (nm.classify_node s0) = "research" := by
    unfold should_continue_to_research
    rw [if_neg (by simp [h1])]
  have hr2 : should_continue_to_script
      (nm.research_node (nm.classify_node s0)) = "script_generation" := by
    unfold should_continue_to_script
    rw [if_neg (by simp [h2])]
  have hr3 : should_continue_to_thumbnails
      (nm.script_generation_node (nm.research_node (nm.classify_node s0)))
        = "thumbnail_generation" := by
    unfold should_continue_to_thumbnails
    rw [if_neg (by simp [h3])]
  simp [invokeWorkflow, hr1, hr2, hr3]

/-! ## Membership and duplicate-freeness helpers for `completed_steps` -/

theorem not_mem_runNode_cs (x n l : String) (c : Collab) (s : GameCraftState)
    (hx : x ≠ n) (h : x ∉ s.completed_steps) :
    x ∉ (runNode n l c s).completed_steps := by
  rcases runNode_completed_steps n l c s with hc | hc | hc <;> rw [hc]
  · exact h
  · intro hmem
    rcases List.mem_append.mp hmem with hm | hm
    · exact h hm
    · exact hx (List.mem_singleton.mp hm)
  · intro hmem
    rcases List.mem_append.mp hmem with hm | hm
    · exact h hm
    · rcases List.mem_cons.mp hm with hm' | hm'
      · exact hx hm'
      · exact hx (List.mem_singleton.mp hm')

theorem not_mem_finish_cs (x : String) (s : GameCraftState)
    (hx : x ≠ "finished") (h : x ∉ s.completed_steps) :
    x ∉ (finish_node s).completed_steps := by
  rw [finish_node_completed_steps]
  intro hmem
  rcases List.mem_append.mp hmem with hm | hm
  · exact h hm
  · exact hx (List.mem_singleton.mp hm)

/-! ## C3 -/

/-- C3: in every run of the graph from an initial state (whose
`completed_steps` starts empty), once the state after some pipeline step
carries a non-empty `errors` list, no later pipeline step is executed or
appended: `completed_steps` of the final state contains no step name that
comes after the first error-producing step — only `"finished"` is added
past that point. -/
theorem pipeline_short_circuits (nm : NodeManager) (s0 : GameCraftState)
    (h0 : s0.completed_steps = []) :
    ((nm.classify_node s0).errors ≠ [] →
      "research" ∉ (invokeWorkflow nm s0).completed_steps ∧
      "script_generation" ∉ (invokeWorkflow nm s0).completed_steps ∧
      "thumbnail_generation" ∉ (invokeWorkflow nm s0).completed_steps) ∧
    ((nm.research_node (nm.classify_node s0)).errors ≠ [] →
      "script_generation" ∉ (invokeWorkflow nm s0).completed_steps ∧
      "thumbnail_generation" ∉ (invokeWorkflow nm s0).completed_steps) ∧
    ((nm.script_generation_node
        (nm.research_node (nm.classify_node s0))).errors ≠ [] →
      "thumbnail_generation" ∉ (invokeWorkflow nm s0).completed_steps) := by
  have hs0 : ∀ x : String, x ∉ s0.completed_steps := by
    rw [h0]
    intro x hx
    exact (List.not_mem_nil x) hx
  refine ⟨fun h1 => ?_, fun h2 => ?_, fun h3 => ?_⟩
  · rw [invokeWorkflow_eq_finish_classify nm s0 h1]
    refine ⟨?_, ?_, ?_⟩ <;>
      exact not_mem_finish_cs _ _ (by decide)
        (not_mem_runNode_cs _ _ _ _ _ (by decide) (hs0 _))
  · by_cases h1 : (nm.classify_node s0).errors = []
    · rw [invokeWorkflow_eq_finish_research nm s0 h1 h2]
      refine ⟨?_, ?_⟩ <;>
        exact not_mem_finish_cs _ _ (by decide)
          (not_mem_runNode_cs _ _ _ _ _ (by decide)
            (not_mem_runNode_cs _ _ _ _ _ (by decide) (hs0 _)))
    · rw [invokeWorkflow_eq_finish_classify nm s0 h1]
      refine ⟨?_, ?_⟩ <;>
        exact not_mem_finish_cs _ _ (by decide)
          (not_mem_runNode_cs _ _ _ _ _ (by decide) (hs0 _))
  · by_cases h1 : (nm.classify_node s0).errors = []
    · by_cases h2 : (nm.research_node (nm.classify_node s0)).errors = []
      · rw [invokeWorkflow_eq_finish_script nm s0 h1 h2 h3]
        exact not_mem_finish_cs _ _ (by decide)
          (not_mem_runNode_cs _ _ _ _ _ (by decide)
            (not_mem_runNode_cs _ _ _ _ _ (by decide)
              (not_mem_runNode_cs _ _ _ _ _ (by decide) (hs0 _))))
      · rw [invokeWorkflow_eq_finish_research nm s0 h1 h2]
        exact not_mem_finish_cs _ _ (by decide)
          (not_mem_runNode_cs _ _ _ _ _ (by decide)
            (not_mem_runNode_cs _ _ _ _ _ (by decide) (hs0 _)))
    · rw [invokeWorkflow_eq_finish_classify nm s0 h1]
      exact not_mem_finish_cs _ _ (by decide)
        (not_mem_runNode_cs _ _ _ _ _ (by decide) (hs0 _))

/-- Witness for C3: with every collaborator raising, classify produces an
error, and none of the three later pipeline steps appears in the final
`completed_steps`. -/
theorem pipeline_short_circuits_witness :
    "research" ∉ (invokeWorkflow nmBoom blankState).completed_steps ∧
    "script_generation" ∉ (invokeWorkflow nmBoom blankState).completed_steps ∧
    "thumbnail_generation" ∉ (invokeWorkflow nmBoom blankState).completed_steps :=
  (pipeline_short_circuits nmBoom blankState rfl).1 (by decide)

/-! ## C4 -/

/-- A state that already lists `"classify"` among its completed steps. -/
def stateAlreadyClassified : GameCraftState :=
  { blankState with completed_steps := ["classify"] }

/-- C4 counterexample: the nodes append their name unconditionally
(`state["completed_steps"].append(...)` with no membership check), so
re-applying `classify_node` to a state that already contains
`"classify"` duplicates the entry. -/
theorem node_append_duplicates :
    stateAlreadyClassified.completed_steps = ["classify"] ∧
    (nmId.classify_node stateAlreadyClassified).completed_steps =
      ["classify", "classify"] ∧
    ¬ (nmId.classify_node stateAlreadyClassified).completed_steps.Nodup := by
  refine ⟨rfl, rfl, by decide⟩

/-- C4 amended: the claim is false of the program in both parts. Each
node appends its name to `completed_steps` unconditionally (no membership
check) on success, so re-applying a node duplicates its entry (the
counterexample above); and even a single successful run from the initial
state duplicates `"script_generation"`, because the script writer's own
bookkeeping (`BaseAgent._update_processing_step`) appends it once
through the shared `completed_steps` list and the node then appends it
again — the final `completed_steps` of such a run is not
duplicate-free. -/
theorem run_duplicates_script_generation :
    (invokeWorkflow nmScripted blankState).completed_steps =
      ["classify", "research", "script_generation", "script_generation",
       "thumbnail_generation", "finished"] ∧
    ¬ (invokeWorkflow nmScripted blankState).completed_steps.Nodup := by
  refine ⟨rfl, by decide⟩

end GameCraft
